import Mathlib

/-!
# Verification of the astro-backend Panchang service (src/app/main.py)

A shallow embedding of the single source file of the repository: the
Capability Prober (safe_call), the Panchang Assembler (get_panchang), the
Best-Effort Recorder (write_to_sheet) and, modelled from the spec because it
is absent from src/, the Stub Responder.

External collaborators (the vedastro library, the spreadsheet backend, the
web framework) are represented by an explicit environment of outcome
functions: a callable either returns a Python value or raises (Except), and
constructors may fail.  Python objects are abstracted to the three features
the source reads from them: truthiness, their str() rendering, and an
optional "name" attribute.  The handler bodies are transcribed statement by
statement; instrumented variants additionally record the probe calls made,
the spreadsheet operations attempted and the successive states of the
result mapping, so that frame and monotonicity claims can be stated.
-/

namespace AstroBackend

/-- Abstraction of a Python value as the source observes it: either None, or
an object with an optional string "name" attribute, a str() rendering, and a
truthiness bit. -/
inductive PyVal where
  | vnone
  | vobj (nameAttr : Option String) (strRepr : String) (truthy : Bool)
deriving DecidableEq

/-- Python str(v). -/
def PyVal.pyStr : PyVal → String
  | .vnone => "None"
  | .vobj _ s _ => s

/-- Python bool(v): None is falsy, objects carry their truthiness bit. -/
def PyVal.pyTruthy : PyVal → Bool
  | .vnone => false
  | .vobj _ _ b => b

/-- Python getattr(v, "name", str(v)). -/
def PyVal.nameOrStr : PyVal → String
  | .vnone => "None"
  | .vobj (some n) _ _ => n
  | .vobj none s _ => s

/-- JSON-like values stored in the response mapping. -/
inductive JVal where
  | null
  | str (s : String)
  | num (q : Rat)
  | bool (b : Bool)
  | obj (entries : List (String × JVal))

/-- The response mapping: an insertion-ordered dictionary. -/
abbrev Entries := List (String × JVal)

/-- Python dict assignment d[k] = v: overwrite in place, else append. -/
def dictSet : Entries → String → JVal → Entries
  | [], k, v => [(k, v)]
  | (k0, v0) :: rest, k, v =>
      if k0 = k then (k, v) :: rest else (k0, v0) :: dictSet rest k v

/-- Python dict read d[k] (as an Option). -/
def dictLookup : Entries → String → Option JVal
  | [], _ => none
  | (k0, v0) :: rest, k => if k0 = k then some v0 else dictLookup rest k

/-- Python d.get(k) with default None. -/
def dictGetD (d : Entries) (k : String) : JVal :=
  match dictLookup d k with
  | some v => v
  | none => JVal.null

/-- Opaque handle produced by GeoLocation(...). -/
structure GeoLoc where
  handle : Nat
deriving DecidableEq

/-- Opaque handle produced by Time(...). -/
structure TimeObj where
  handle : Nat
deriving DecidableEq

/-- Spreadsheet backend operations observable from write_to_sheet. -/
inductive SheetOp where
  | authorize
  | openByKey
  | worksheetLookup
  | addWorksheet
  | insertHeader
  | appendRow (row : List JVal)

/-- Outcomes of the external steps taken by write_to_sheet, plus its
configuration (GSHEET_ID and GOOGLE_SERVICE_ACCOUNT_JSON environment
variables).  Each Except field is the outcome of the corresponding call in
the source: raising (with str(e)) or succeeding. -/
structure SheetEnv where
  gsheetId : Option String
  googleServiceAccountJson : Option String
  libLoad : Except String Unit
  parseCreds : Except String Unit
  keyfile : Except String Unit
  authGrant : Except String Unit
  openByKey : Except String Unit
  wsLookup : Except String Unit
  addWorksheet : Except String Unit
  insertHeader : Except String Unit
  appendRow : Except String Unit
  dumps : Entries → String
  nowStr : String

/-- The full external environment of one request: whether the vedastro
module loaded (and its original error message otherwise), the attribute
table of the Calculate facility (none means absent or not callable), the
GeoLocation and Time constructors, the traceback text the top-level handler
would render, the current date, and the sheet environment. -/
structure Env where
  avail : Bool
  unavailMsg : String
  calcAttr : String → Option (List TimeObj → Except String PyVal)
  geoCtor : Option String → Rat → Rat → Except String GeoLoc
  timeCtor : String → GeoLoc → Except String TimeObj
  tb : String
  today : String
  sheet : SheetEnv

/-- Python str.lower(): character-wise lower-casing (the probed identifier
names are ASCII, where the Python and Lean case maps agree). -/
def pyLower (s : String) : String := String.mk (s.data.map Char.toLower)

/-- Python str.upper(): character-wise upper-casing. -/
def pyUpper (s : String) : String := String.mk (s.data.map Char.toUpper)

/-- Python str.capitalize(): first character upper-cased, rest lower-cased. -/
def pyCapitalize (s : String) : String :=
  match s.data with
  | [] => ""
  | c :: rest => String.mk (c.toUpper :: rest.map Char.toLower)

/-- The alternative names tried by safe_call after the canonical name, in
source order: lowercase, uppercase, capitalized, "All"+name, "Get"+name. -/
def altNames (name : String) : List String :=
  [pyLower name, pyUpper name, pyCapitalize name,
   "All" ++ name, "Get" ++ name]

/-- The for-loop of safe_call: the first name resolving to a callable. -/
def findCallable (calcAttr : String → Option (List TimeObj → Except String PyVal)) :
    List String → Option (List TimeObj → Except String PyVal)
  | [] => none
  | n :: rest =>
      match calcAttr n with
      | some f => some f
      | none => findCallable calcAttr rest

/-- safe_call(name, *args): raise if vedastro is unavailable; try the
canonical name; otherwise try the alternatives in order; if nothing is
callable return None. -/
def safe_call (env : Env) (name : String) (args : List TimeObj) :
    Except String PyVal :=
  if env.avail = false then
    .error ("VedAstro not available: " ++ env.unavailMsg)
  else
    match env.calcAttr name with
    | some fn => fn args
    | none =>
        match findCallable env.calcAttr (altNames name) with
        | some fn => fn args
        | none => .ok PyVal.vnone

/-- The seven Panchang quantities. -/
inductive Quantity where
  | tithi | nakshatra | yoga | karan | rahu | gulika | abhijit
deriving DecidableEq

/-- Top-level response key of each quantity. -/
def fieldKey : Quantity → String
  | .tithi => "tithi"
  | .nakshatra => "nakshatra"
  | .yoga => "yoga"
  | .karan => "karan"
  | .rahu => "rahu_kaal"
  | .gulika => "gulika_kaal"
  | .abhijit => "abhijit"

/-- Raw-diagnostic key recording the stringified object of each quantity. -/
def objKey : Quantity → String
  | .tithi => "tithi_obj"
  | .nakshatra => "nakshatra_obj"
  | .yoga => "yoga_obj"
  | .karan => "karan_obj"
  | .rahu => "rahu_obj"
  | .gulika => "gulika_obj"
  | .abhijit => "abhijit_obj"

/-- Raw-diagnostic key recording the error message of each quantity. -/
def errKey : Quantity → String
  | .tithi => "tithi_error"
  | .nakshatra => "nakshatra_error"
  | .yoga => "yoga_error"
  | .karan => "karan_error"
  | .rahu => "rahu_error"
  | .gulika => "gulika_error"
  | .abhijit => "abhijit_error"

/-- safe_call instrumented with the canonical name it was asked for. -/
def safe_callT (env : Env) (name : String) (args : List TimeObj) :
    Except String PyVal × List String :=
  (safe_call env name args, [name])

/-- Python a or b over traced prober results: keep a if it raised or is
truthy, otherwise evaluate b and keep its outcome, concatenating traces. -/
def orElseT (a : Except String PyVal × List String)
    (b : Unit → Except String PyVal × List String) :
    Except String PyVal × List String :=
  match a with
  | (.error e, tr) => (.error e, tr)
  | (.ok v, tr) =>
      if v.pyTruthy then (.ok v, tr)
      else
        let r := b ()
        (r.1, tr ++ r.2)

/-- The body of each quantity's try-block up to the point where its result
object is known, with the list of canonical names passed to safe_call.
Transcribed from the seven blocks of get_panchang: tithi retries on an
explicit `is None` test, the other quantities chain with Python `or`. -/
def computeT : Quantity → Env → TimeObj → Except String PyVal × List String
  | .tithi, env, t =>
      match safe_callT env "TithiAtTime" [t] with
      | (.error e, tr) => (.error e, tr)
      | (.ok v, tr) =>
          if v = PyVal.vnone then
            let r := safe_callT env "AllTithiData" [t]
            (r.1, tr ++ r.2)
          else (.ok v, tr)
  | .nakshatra, env, t =>
      orElseT (safe_callT env "NakshatraAtTime" [t])
        (fun _ => safe_callT env "AllNakshatraData" [t])
  | .yoga, env, t =>
      orElseT (safe_callT env "YogaAtTime" [t])
        (fun _ => safe_callT env "AllYogaData" [t])
  | .karan, env, t =>
      orElseT (safe_callT env "KaranAtTime" [t])
        (fun _ => safe_callT env "AllKaranData" [t])
  | .rahu, env, t =>
      orElseT
        (orElseT (safe_callT env "RahuKaalAtDate" [t])
          (fun _ => safe_callT env "GetRahuKaal" [t]))
        (fun _ => safe_callT env "RahuKaal" [])
  | .gulika, env, t =>
      orElseT
        (orElseT (safe_callT env "GulikaAtDate" [t])
          (fun _ => safe_callT env "GetGulika" [t]))
        (fun _ => safe_callT env "Gulika" [])
  | .abhijit, env, t =>
      orElseT (safe_callT env "AbhijitAtDate" [t])
        (fun _ => safe_callT env "GetAbhijit" [t])

/-- Whether the quantity's label is read through getattr(obj, "name", str(obj))
(tithi..karan) rather than plain str(obj) (rahu, gulika, abhijit). -/
def usesNameAttr : Quantity → Bool
  | .tithi | .nakshatra | .yoga | .karan => true
  | .rahu | .gulika | .abhijit => false

/-- The value stored in the quantity's top-level field on success:
the label if the object is truthy, else None. -/
def extractLabel (q : Quantity) (v : PyVal) : JVal :=
  if v.pyTruthy then
    (if usesNameAttr q then JVal.str v.nameOrStr else JVal.str v.pyStr)
  else JVal.null

/-- The nested raw diagnostic mapping of a result state. -/
def getRaw (s : Entries) : Entries :=
  match dictLookup s "raw" with
  | some (.obj es) => es
  | _ => []

/-- result["raw"][k] = v. -/
def rawSet (s : Entries) (k : String) (v : JVal) : Entries :=
  dictSet s "raw" (JVal.obj (dictSet (getRaw s) k v))

/-- result["raw"][k] read. -/
def rawLookup (s : Entries) (k : String) : Option JVal :=
  dictLookup (getRaw s) k

/-- One quantity's try-block: on success assign the field label and the
stringified object diagnostic; on an exception record only the error
message.  Also returns the probe names issued. -/
def attemptQ (env : Env) (t : TimeObj) (q : Quantity) (s : Entries) :
    Entries × List String :=
  match computeT q env t with
  | (.error e, tr) => (rawSet s (errKey q) (JVal.str e), tr)
  | (.ok v, tr) =>
      (rawSet (dictSet s (fieldKey q) (extractLabel q v)) (objKey q)
        (JVal.str v.pyStr), tr)

/-- The source's quantity order. -/
def quantList : List Quantity :=
  [.tithi, .nakshatra, .yoga, .karan, .rahu, .gulika, .abhijit]

/-- Run the quantity blocks in order, collecting the final state, the
concatenated probe trace, and every intermediate state (after each block). -/
def runQs (env : Env) (t : TimeObj) :
    List Quantity → Entries → Entries × List String × List Entries
  | [], s => (s, [], [])
  | q :: qs, s =>
      let step := attemptQ env t q s
      let rest := runQs env t qs step.1
      (rest.1, step.2 ++ rest.2.1, step.1 :: rest.2.2)

/-- Python truthiness of an optional env string: absent or empty is falsy. -/
def pyFalsyOpt : Option String → Bool
  | none => true
  | some s => s == ""

/-- The spreadsheet row assembled by write_to_sheet. -/
def mkSheetRow (senv : SheetEnv) (result : Entries) : List JVal :=
  [dictGetD result "date",
   dictGetD result "city",
   dictGetD result "tithi",
   dictGetD result "nakshatra",
   dictGetD result "yoga",
   dictGetD result "karan",
   dictGetD result "rahu_kaal",
   dictGetD result "gulika_kaal",
   dictGetD result "abhijit",
   JVal.str (senv.dumps (getRaw result)),
   JVal.str senv.nowStr]

/-- write_to_sheet(result): return False immediately when either
configuration value is falsy; otherwise run the library load, credential
parse, keyfile, authorize, open-by-key, worksheet lookup (creating the
worksheet and inserting the header on lookup failure) and row append, any
failure being caught and reported as False.  Instrumented with the backend
operations attempted. -/
def write_to_sheetT (senv : SheetEnv) (result : Entries) :
    Bool × List SheetOp :=
  if pyFalsyOpt senv.googleServiceAccountJson || pyFalsyOpt senv.gsheetId then
    (false, [])
  else
    match senv.libLoad with
    | .error _ => (false, [])
    | .ok _ =>
      match senv.parseCreds with
      | .error _ => (false, [])
      | .ok _ =>
        match senv.keyfile with
        | .error _ => (false, [])
        | .ok _ =>
          match senv.authGrant with
          | .error _ => (false, [SheetOp.authorize])
          | .ok _ =>
            match senv.openByKey with
            | .error _ => (false, [SheetOp.authorize, SheetOp.openByKey])
            | .ok _ =>
              match senv.wsLookup with
              | .ok _ =>
                  let row := mkSheetRow senv result
                  match senv.appendRow with
                  | .ok _ =>
                      (true, [SheetOp.authorize, SheetOp.openByKey,
                        SheetOp.worksheetLookup, SheetOp.appendRow row])
                  | .error _ =>
                      (false, [SheetOp.authorize, SheetOp.openByKey,
                        SheetOp.worksheetLookup, SheetOp.appendRow row])
              | .error _ =>
                  match senv.addWorksheet with
                  | .error _ =>
                      (false, [SheetOp.authorize, SheetOp.openByKey,
                        SheetOp.worksheetLookup, SheetOp.addWorksheet])
                  | .ok _ =>
                    match senv.insertHeader with
                    | .error _ =>
                        (false, [SheetOp.authorize, SheetOp.openByKey,
                          SheetOp.worksheetLookup, SheetOp.addWorksheet,
                          SheetOp.insertHeader])
                    | .ok _ =>
                        let row := mkSheetRow senv result
                        match senv.appendRow with
                        | .ok _ =>
                            (true, [SheetOp.authorize, SheetOp.openByKey,
                              SheetOp.worksheetLookup, SheetOp.addWorksheet,
                              SheetOp.insertHeader, SheetOp.appendRow row])
                        | .error _ =>
                            (false, [SheetOp.authorize, SheetOp.openByKey,
                              SheetOp.worksheetLookup, SheetOp.addWorksheet,
                              SheetOp.insertHeader, SheetOp.appendRow row])

/-- An HTTPException raised by the top-level handler. -/
structure HTTPError where
  status : Nat
  detail : String
deriving DecidableEq

/-- date defaulting: `if not date` — absent or empty falls back to today. -/
def resolveDate (date0 : Option String) (today : String) : String :=
  match date0 with
  | none => today
  | some d => if d = "" then today else d

/-- The city value in the result shell (Optional[str]). -/
def jCity : Option String → JVal
  | none => JVal.null
  | some c => JVal.str c

/-- The default result shell built at the top of get_panchang. -/
def initShell (date : String) (city : Option String) (lat lon : Rat) :
    Entries :=
  [("date", JVal.str date),
   ("city", jCity city),
   ("latitude", JVal.num lat),
   ("longitude", JVal.num lon),
   ("tithi", JVal.null),
   ("nakshatra", JVal.null),
   ("yoga", JVal.null),
   ("karan", JVal.null),
   ("rahu_kaal", JVal.null),
   ("gulika_kaal", JVal.null),
   ("abhijit", JVal.null),
   ("raw", JVal.obj [])]

/-- GeoLocation construction: (city, lon, lat) first, on failure
(city, lat, lon); a failure of the second attempt is not caught here. -/
def mkGeo (env : Env) (city : Option String) (lat lon : Rat) :
    Except String GeoLoc :=
  match env.geoCtor city lon lat with
  | .ok g => .ok g
  | .error _ => env.geoCtor city lat lon

/-- Time construction: the ISO date string first, on failure the fallback
string with the hardcoded +05:30 offset; a failure of the second attempt is
not caught here. -/
def mkTime (env : Env) (date : String) (geol : GeoLoc) :
    Except String TimeObj :=
  match env.timeCtor date geol with
  | .ok t => .ok t
  | .error _ => env.timeCtor ("00:00 " ++ date ++ " +05:30") geol

/-- Everything one run of the handler produced: the HTTP outcome, the
canonical names passed to safe_call, the spreadsheet operations attempted,
and the successive states of the result mapping. -/
structure RunOut where
  response : Except HTTPError Entries
  probes : List String
  sheetOps : List SheetOp
  states : List Entries

/-- The /panchang handler.  tz is accepted but never read (as in the
source).  FastAPI renders an Except.ok as an HTTP 200 JSON response and the
raised HTTPException as its status code. -/
def get_panchangT (env : Env) (date0 : Option String) (lat lon : Rat)
    (tz : String) (city : Option String) : RunOut :=
  let date := resolveDate date0 env.today
  let result := initShell date city lat lon
  if env.avail = false then
    let result1 := rawSet result "error"
      (JVal.str ("vedastro not installed on server: " ++ env.unavailMsg))
    { response := .ok result1, probes := [], sheetOps := [],
      states := [result, result1] }
  else
    match mkGeo env city lat lon with
    | .error e =>
        { response := .error
            ⟨500, "Server error: " ++ e ++ "\n" ++ env.tb⟩,
          probes := [], sheetOps := [], states := [result] }
    | .ok geol =>
      match mkTime env date geol with
      | .error e =>
          { response := .error
              ⟨500, "Server error: " ++ e ++ "\n" ++ env.tb⟩,
            probes := [], sheetOps := [], states := [result] }
      | .ok t =>
          let run := runQs env t quantList result
          let sheet := write_to_sheetT env.sheet run.1
          let final := rawSet run.1 "sheet_written" (JVal.bool sheet.1)
          { response := .ok final, probes := run.2.1,
            sheetOps := sheet.2, states := result :: run.2.2 ++ [final] }

/-- The handler as the client sees it: its HTTP response. -/
def get_panchang (env : Env) (date0 : Option String) (lat lon : Rat)
    (tz : String) (city : Option String) : Except HTTPError Entries :=
  (get_panchangT env date0 lat lon tz city).response

/-- Modelled from the spec: the Stub Responder, the alternate HTTP POST
handler described in spec sections 4.4 and 6, is not present under src/ of
this repository.  Following the words of the spec, it accepts a structured
request (date, lat, lon, city), performs no external computation, and
returns a fixed-shape success payload with status "ok", the hardcoded
values tithi "Pratipada", nakshatra "Rohini", sunrise "06:28", sunset
"17:48", and the input date, lat, lon and city echoed unchanged. -/
def stub_responder (date : String) (lat lon : Rat) (city : String) :
    Entries :=
  [("status", JVal.str "ok"),
   ("date", JVal.str date),
   ("lat", JVal.num lat),
   ("lon", JVal.num lon),
   ("city", JVal.str city),
   ("tithi", JVal.str "Pratipada"),
   ("nakshatra", JVal.str "Rohini"),
   ("sunrise", JVal.str "06:28"),
   ("sunset", JVal.str "17:48")]

/-- The canonical names each quantity's block passes to safe_call, in
source order. -/
def probeNames : Quantity → List String
  | .tithi => ["TithiAtTime", "AllTithiData"]
  | .nakshatra => ["NakshatraAtTime", "AllNakshatraData"]
  | .yoga => ["YogaAtTime", "AllYogaData"]
  | .karan => ["KaranAtTime", "AllKaranData"]
  | .rahu => ["RahuKaalAtDate", "GetRahuKaal", "RahuKaal"]
  | .gulika => ["GulikaAtDate", "GetGulika", "Gulika"]
  | .abhijit => ["AbhijitAtDate", "GetAbhijit"]

/-- Every attribute name safe_call may consult on behalf of a quantity:
each canonical probe name together with its variants. -/
def nameClosure (q : Quantity) : List String :=
  (probeNames q).flatMap (fun n => n :: altNames n)

/-- The full name search order of safe_call: the canonical name followed by
its variants. -/
def searchOrder (name : String) : List String := name :: altNames name

/-- The first canonical probe name of a quantity. -/
def primaryName (q : Quantity) : String := (probeNames q).headD ""

/-- Whether an external step succeeded. -/
def exOk : Except String Unit → Bool
  | .ok _ => true
  | .error _ => false

/-- A sheet environment with no configuration and all steps succeeding. -/
def sheetEnvOff : SheetEnv :=
  { gsheetId := none
    googleServiceAccountJson := none
    libLoad := .ok ()
    parseCreds := .ok ()
    keyfile := .ok ()
    authGrant := .ok ()
    openByKey := .ok ()
    wsLookup := .ok ()
    addWorksheet := .ok ()
    insertHeader := .ok ()
    appendRow := .ok ()
    dumps := fun _ => "serialized"
    nowStr := "2025-01-01 00:00:00" }

/-- A concrete environment whose Calculate facility binds only the name
Tithi (the capitalized variant of TITHI). -/
def envCap : Env :=
  { avail := true
    unavailMsg := ""
    calcAttr := fun n =>
      if n = "Tithi" then
        some (fun _ => .ok (PyVal.vobj (some "cap") "capObj" true))
      else none
    geoCtor := fun _ _ _ => .ok ⟨0⟩
    timeCtor := fun _ _ => .ok ⟨0⟩
    tb := "TB"
    today := "2025-01-01"
    sheet := sheetEnvOff }

/-- A concrete environment where the vedastro module failed to load. -/
def envOff : Env :=
  { envCap with avail := false, unavailMsg := "no module named vedastro" }

/-- Unavailable facility but fully configured persistence. -/
def envOffSheetOn : Env :=
  { envOff with
      sheet := { sheetEnvOff with
                   gsheetId := some "sheetid"
                   googleServiceAccountJson := some "credsjson" } }

/-- A concrete environment whose GeoLocation constructor fails for both
argument orders, with distinct messages (lat = 1, lon = 2 below). -/
def envGeoFail : Env :=
  { envCap with geoCtor := fun _ a _ =>
      if a = 2 then .error "lonlat failed" else .error "latlon failed" }

/-- A concrete environment where no Calculate attribute resolves. -/
def envNone : Env := { envCap with calcAttr := fun _ => none }

/-- A concrete environment where only NakshatraAtTime is callable. -/
def envIso : Env :=
  { envCap with
      calcAttr := fun n =>
        if n = "NakshatraAtTime" then
          some (fun _ => .ok (PyVal.vobj (some "Rohini") "NakObj" true))
        else none }

/-- envIso's facility with TithiAtTime additionally bound to a callable
that raises. -/
def calcBoom : String → Option (List TimeObj → Except String PyVal) :=
  fun n =>
    if n = "TithiAtTime" then some (fun _ => .error "boom")
    else envIso.calcAttr n

/-! ## Dictionary lemmas -/

/-- The keys of a result mapping in order. -/
def dictKeys (d : Entries) : List String := d.map Prod.fst

/-- The probe trace contributed by each quantity, concatenated. -/
def probesOf (env : Env) (t : TimeObj) : List Quantity → List String
  | [] => []
  | q :: qs => (computeT q env t).2 ++ probesOf env t qs

/-- The twelve top-level keys of a PanchangResult. -/
def topKeys : List String :=
  ["date", "city", "latitude", "longitude", "tithi", "nakshatra", "yoga",
   "karan", "rahu_kaal", "gulika_kaal", "abhijit", "raw"]

/-- Every top-level key is present in the state. -/
def presentAll (s : Entries) : Prop :=
  ∀ k ∈ topKeys, (dictLookup s k).isSome = true

/-- s' keeps every raw entry of s with its value. -/
def rawExtends (s s' : Entries) : Prop :=
  ∀ k v, rawLookup s k = some v → rawLookup s' k = some v

/-- The keys currently bound in the raw diagnostic mapping. -/
def rawKeys (s : Entries) : List String := dictKeys (getRaw s)

theorem dictLookup_set_self (s : Entries) (k : String) (v : JVal) :
    dictLookup (dictSet s k v) k = some v := by
  induction s with
  | nil => simp [dictSet, dictLookup]
  | cons hd tl ih =>
      obtain ⟨k0, v0⟩ := hd
      by_cases h : k0 = k
      · simp [dictSet, h, dictLookup]
      · simp [dictSet, h, dictLookup, ih]

theorem dictLookup_set_ne (s : Entries) (k : String) (v : JVal) (k' : String)
    (h : k' ≠ k) : dictLookup (dictSet s k v) k' = dictLookup s k' := by
  induction s with
  | nil => simp [dictSet, dictLookup, Ne.symm h]
  | cons hd tl ih =>
      obtain ⟨k0, v0⟩ := hd
      by_cases h0 : k0 = k
      · subst h0
        simp [dictSet, dictLookup, Ne.symm h]
      · simp only [dictSet, if_neg h0, dictLookup]
        by_cases h1 : k0 = k'
        · simp [h1]
        · simp [h1, ih]

theorem dictLookup_set_isSome (s : Entries) (k : String) (v : JVal)
    (k' : String) (h : (dictLookup s k').isSome = true) :
    (dictLookup (dictSet s k v) k').isSome = true := by
  by_cases hk : k' = k
  · subst hk; simp [dictLookup_set_self]
  · rw [dictLookup_set_ne s k v k' hk]; exact h

theorem mem_dictKeys_of_lookup (s : Entries) (k : String) (v : JVal)
    (h : dictLookup s k = some v) : k ∈ dictKeys s := by
  induction s with
  | nil => simp [dictLookup] at h
  | cons hd tl ih =>
      obtain ⟨k0, v0⟩ := hd
      by_cases h0 : k0 = k
      · simp [dictKeys, h0]
      · simp only [dictLookup, if_neg h0] at h
        simp [dictKeys] at ih ⊢
        exact Or.inr (ih h)

theorem dictKeys_set_subset (s : Entries) (k : String) (v : JVal) :
    ∀ k' ∈ dictKeys (dictSet s k v), k' ∈ k :: dictKeys s := by
  induction s with
  | nil =>
      intro k' hk'
      simp [dictSet, dictKeys] at hk'
      simp [hk']
  | cons hd tl ih =>
      obtain ⟨k0, v0⟩ := hd
      intro k' hk'
      by_cases h0 : k0 = k
      · subst h0
        simp [dictSet, dictKeys] at hk'
        rcases hk' with h | h <;> simp [h, dictKeys]
      · simp only [dictSet, if_neg h0, dictKeys, List.map_cons,
          List.mem_cons] at hk'
        simp only [dictKeys, List.map_cons, List.mem_cons]
        rcases hk' with h | h
        · simp [h]
        · have hmem := ih k' h
          simp only [List.mem_cons, dictKeys] at hmem
          tauto

theorem dictLookup_set_ne_of_not_mem (s : Entries) (k : String) (v : JVal)
    (k' : String) (hk : k ∉ dictKeys s) (h : dictLookup s k' = some v) :
    k' ≠ k := by
  intro he
  subst he
  exact hk (mem_dictKeys_of_lookup s k' v h)

/-! ## Raw-mapping lemmas -/

theorem getRaw_rawSet (s : Entries) (k : String) (v : JVal) :
    getRaw (rawSet s k v) = dictSet (getRaw s) k v := by
  simp [rawSet, getRaw, dictLookup_set_self]

theorem getRaw_dictSet_ne (s : Entries) (k : String) (v : JVal)
    (h : k ≠ "raw") : getRaw (dictSet s k v) = getRaw s := by
  unfold getRaw
  rw [dictLookup_set_ne s k v "raw" (fun hh => h hh.symm)]

theorem dictLookup_rawSet_ne (s : Entries) (k : String) (v : JVal)
    (k' : String) (h : k' ≠ "raw") :
    dictLookup (rawSet s k v) k' = dictLookup s k' := by
  unfold rawSet
  exact dictLookup_set_ne s "raw" _ k' h

theorem rawLookup_rawSet_self (s : Entries) (k : String) (v : JVal) :
    rawLookup (rawSet s k v) k = some v := by
  unfold rawLookup
  rw [getRaw_rawSet]
  exact dictLookup_set_self _ _ _

theorem rawLookup_rawSet_ne (s : Entries) (k : String) (v : JVal)
    (k' : String) (h : k' ≠ k) :
    rawLookup (rawSet s k v) k' = rawLookup s k' := by
  unfold rawLookup
  rw [getRaw_rawSet]
  exact dictLookup_set_ne _ _ _ _ h

theorem rawLookup_dictSet_ne (s : Entries) (k : String) (v : JVal)
    (k' : String) (h : k ≠ "raw") :
    rawLookup (dictSet s k v) k' = rawLookup s k' := by
  unfold rawLookup
  rw [getRaw_dictSet_ne s k v h]

/-! ## findCallable and safe_call lemmas -/

theorem findCallable_congr
    (c1 c2 : String → Option (List TimeObj → Except String PyVal))
    (l : List String) (h : ∀ n ∈ l, c1 n = c2 n) :
    findCallable c1 l = findCallable c2 l := by
  induction l with
  | nil => rfl
  | cons a rest ih =>
      have ha : c1 a = c2 a := h a (by simp)
      unfold findCallable
      rw [ha]
      cases c2 a with
      | some f => rfl
      | none => exact ih (fun n hn => h n (by simp [hn]))

theorem findCallable_eq_of_first
    (c : String → Option (List TimeObj → Except String PyVal))
    (l : List String) (k : Nat) (n : String)
    (f : List TimeObj → Except String PyVal)
    (hget : l[k]? = some n) (hnone : ∀ m ∈ l.take k, c m = none)
    (hf : c n = some f) : findCallable c l = some f := by
  induction l generalizing k with
  | nil => simp at hget
  | cons a rest ih =>
      cases k with
      | zero =>
          simp at hget
          subst hget
          unfold findCallable
          rw [hf]
      | succ k' =>
          have ha : c a = none := hnone a (by simp)
          unfold findCallable
          rw [ha]
          exact ih k' (by simpa using hget)
            (fun m hm => hnone m (by simp [hm]))

theorem findCallable_eq_none
    (c : String → Option (List TimeObj → Except String PyVal))
    (l : List String) (h : ∀ m ∈ l, c m = none) :
    findCallable c l = none := by
  induction l with
  | nil => rfl
  | cons a rest ih =>
      unfold findCallable
      rw [h a (by simp)]
      exact ih (fun m hm => h m (by simp [hm]))

theorem safe_call_congr (env1 env2 : Env) (name : String)
    (args : List TimeObj)
    (ha : env1.avail = env2.avail) (hm : env1.unavailMsg = env2.unavailMsg)
    (hc : ∀ m ∈ name :: altNames name, env1.calcAttr m = env2.calcAttr m) :
    safe_call env1 name args = safe_call env2 name args := by
  unfold safe_call
  rw [ha, hm]
  cases h2 : env2.avail with
  | false => simp
  | true =>
      simp only [Bool.true_eq_false, if_false]
      have hhead : env1.calcAttr name = env2.calcAttr name :=
        hc name (by simp)
      rw [hhead,
        findCallable_congr env1.calcAttr env2.calcAttr (altNames name)
          (fun n hn => hc n (by simp [hn]))]

/-! ## Quantity probe names and congruence -/

theorem mem_nameClosure (q : Quantity) (n m : String)
    (hn : n ∈ probeNames q) (hm : m ∈ n :: altNames n) :
    m ∈ nameClosure q := by
  simp only [nameClosure, List.mem_flatMap]
  exact ⟨n, hn, hm⟩

theorem computeT_congr (q : Quantity) (env1 env2 : Env) (t : TimeObj)
    (ha : env1.avail = env2.avail) (hm : env1.unavailMsg = env2.unavailMsg)
    (hc : ∀ n ∈ nameClosure q, env1.calcAttr n = env2.calcAttr n) :
    computeT q env1 t = computeT q env2 t := by
  have hsc : ∀ n ∈ probeNames q, ∀ args,
      safe_call env1 n args = safe_call env2 n args := by
    intro n hn args
    exact safe_call_congr env1 env2 n args ha hm
      (fun m hmem => hc m (mem_nameClosure q n m hn hmem))
  cases q with
  | tithi =>
      have h1 := hsc "TithiAtTime" (by simp [probeNames]) [t]
      have h2 := hsc "AllTithiData" (by simp [probeNames]) [t]
      simp [computeT, safe_callT, h1, h2]
  | nakshatra =>
      have h1 := hsc "NakshatraAtTime" (by simp [probeNames]) [t]
      have h2 := hsc "AllNakshatraData" (by simp [probeNames]) [t]
      simp [computeT, orElseT, safe_callT, h1, h2]
  | yoga =>
      have h1 := hsc "YogaAtTime" (by simp [probeNames]) [t]
      have h2 := hsc "AllYogaData" (by simp [probeNames]) [t]
      simp [computeT, orElseT, safe_callT, h1, h2]
  | karan =>
      have h1 := hsc "KaranAtTime" (by simp [probeNames]) [t]
      have h2 := hsc "AllKaranData" (by simp [probeNames]) [t]
      simp [computeT, orElseT, safe_callT, h1, h2]
  | rahu =>
      have h1 := hsc "RahuKaalAtDate" (by simp [probeNames]) [t]
      have h2 := hsc "GetRahuKaal" (by simp [probeNames]) [t]
      have h3 := hsc "RahuKaal" (by simp [probeNames]) []
      simp [computeT, orElseT, safe_callT, h1, h2, h3]
  | gulika =>
      have h1 := hsc "GulikaAtDate" (by simp [probeNames]) [t]
      have h2 := hsc "GetGulika" (by simp [probeNames]) [t]
      have h3 := hsc "Gulika" (by simp [probeNames]) []
      simp [computeT, orElseT, safe_callT, h1, h2, h3]
  | abhijit =>
      have h1 := hsc "AbhijitAtDate" (by simp [probeNames]) [t]
      have h2 := hsc "GetAbhijit" (by simp [probeNames]) [t]
      simp [computeT, orElseT, safe_callT, h1, h2]

/-! ## Key distinctness -/

theorem fieldKey_ne_raw (q : Quantity) : fieldKey q ≠ "raw" := by
  cases q <;> decide

theorem objKey_ne_errKey (q : Quantity) : objKey q ≠ errKey q := by
  cases q <;> decide

theorem crossKeys (q1 q2 : Quantity) (h : q1 ≠ q2) :
    fieldKey q1 ≠ fieldKey q2 ∧ objKey q1 ≠ objKey q2 ∧
    objKey q1 ≠ errKey q2 ∧ errKey q1 ≠ objKey q2 ∧
    errKey q1 ≠ errKey q2 := by
  cases q1 <;> cases q2 <;> first
    | exact absurd rfl h
    | decide

/-! ## attemptQ lemmas -/

theorem attemptQ_trace (env : Env) (t : TimeObj) (q : Quantity)
    (s : Entries) : (attemptQ env t q s).2 = (computeT q env t).2 := by
  unfold attemptQ
  rcases h : computeT q env t with ⟨r, tr⟩
  cases r <;> simp

theorem attemptQ_lookup_frame (env : Env) (t : TimeObj) (q : Quantity)
    (s : Entries) (k : String) (hk1 : k ≠ fieldKey q) (hk2 : k ≠ "raw") :
    dictLookup (attemptQ env t q s).1 k = dictLookup s k := by
  unfold attemptQ
  rcases h : computeT q env t with ⟨r, tr⟩
  cases r with
  | error e => simp [dictLookup_rawSet_ne _ _ _ _ hk2]
  | ok v =>
      simp [dictLookup_rawSet_ne _ _ _ _ hk2,
        dictLookup_set_ne _ _ _ _ hk1]

theorem attemptQ_rawLookup_frame (env : Env) (t : TimeObj) (q : Quantity)
    (s : Entries) (k : String) (h1 : k ≠ objKey q) (h2 : k ≠ errKey q) :
    rawLookup (attemptQ env t q s).1 k = rawLookup s k := by
  unfold attemptQ
  rcases h : computeT q env t with ⟨r, tr⟩
  cases r with
  | error e => simp [rawLookup_rawSet_ne _ _ _ _ h2]
  | ok v =>
      simp [rawLookup_rawSet_ne _ _ _ _ h1,
        rawLookup_dictSet_ne _ _ _ _ (fieldKey_ne_raw q)]

theorem attemptQ_field_of_error (env : Env) (t : TimeObj) (q : Quantity)
    (s : Entries) (e : String) (h : (computeT q env t).1 = .error e) :
    dictLookup (attemptQ env t q s).1 (fieldKey q) =
      dictLookup s (fieldKey q) := by
  unfold attemptQ
  rcases hC : computeT q env t with ⟨r, tr⟩
  rw [hC] at h
  simp at h
  subst h
  simp [dictLookup_rawSet_ne _ _ _ _ (fieldKey_ne_raw q)]

theorem attemptQ_err_of_error (env : Env) (t : TimeObj) (q : Quantity)
    (s : Entries) (e : String) (h : (computeT q env t).1 = .error e) :
    rawLookup (attemptQ env t q s).1 (errKey q) = some (JVal.str e) := by
  unfold attemptQ
  rcases hC : computeT q env t with ⟨r, tr⟩
  rw [hC] at h
  simp at h
  subst h
  simp [rawLookup_rawSet_self]

theorem attemptQ_obj_of_error (env : Env) (t : TimeObj) (q : Quantity)
    (s : Entries) (e : String) (h : (computeT q env t).1 = .error e) :
    rawLookup (attemptQ env t q s).1 (objKey q) =
      rawLookup s (objKey q) := by
  unfold attemptQ
  rcases hC : computeT q env t with ⟨r, tr⟩
  rw [hC] at h
  simp at h
  subst h
  simp [rawLookup_rawSet_ne _ _ _ _ (objKey_ne_errKey q)]

theorem attemptQ_field_of_ok (env : Env) (t : TimeObj) (q : Quantity)
    (s : Entries) (v : PyVal) (h : (computeT q env t).1 = .ok v) :
    dictLookup (attemptQ env t q s).1 (fieldKey q) =
      some (extractLabel q v) := by
  unfold attemptQ
  rcases hC : computeT q env t with ⟨r, tr⟩
  rw [hC] at h
  simp at h
  subst h
  simp [dictLookup_rawSet_ne _ _ _ _ (fieldKey_ne_raw q),
    dictLookup_set_self]

theorem attemptQ_obj_of_ok (env : Env) (t : TimeObj) (q : Quantity)
    (s : Entries) (v : PyVal) (h : (computeT q env t).1 = .ok v) :
    rawLookup (attemptQ env t q s).1 (objKey q) =
      some (JVal.str v.pyStr) := by
  unfold attemptQ
  rcases hC : computeT q env t with ⟨r, tr⟩
  rw [hC] at h
  simp at h
  subst h
  simp [rawLookup_rawSet_self]

theorem attemptQ_err_of_ok (env : Env) (t : TimeObj) (q : Quantity)
    (s : Entries) (v : PyVal) (h : (computeT q env t).1 = .ok v) :
    rawLookup (attemptQ env t q s).1 (errKey q) =
      rawLookup s (errKey q) := by
  unfold attemptQ
  rcases hC : computeT q env t with ⟨r, tr⟩
  rw [hC] at h
  simp at h
  subst h
  simp [rawLookup_rawSet_ne _ _ _ _ (Ne.symm (objKey_ne_errKey q)),
    rawLookup_dictSet_ne _ _ _ _ (fieldKey_ne_raw q)]

/-! ## runQs lemmas -/

theorem runQs_trace (env : Env) (t : TimeObj) :
    ∀ (qs : List Quantity) (s : Entries),
    (runQs env t qs s).2.1 = probesOf env t qs := by
  intro qs
  induction qs with
  | nil => intro s; rfl
  | cons q rest ih =>
      intro s
      simp [runQs, probesOf, attemptQ_trace, ih]

theorem runQs_lookup_frame (env : Env) (t : TimeObj) :
    ∀ (qs : List Quantity) (s : Entries) (k : String),
    (∀ q ∈ qs, k ≠ fieldKey q) → k ≠ "raw" →
    dictLookup (runQs env t qs s).1 k = dictLookup s k := by
  intro qs
  induction qs with
  | nil => intro s k _ _; rfl
  | cons q rest ih =>
      intro s k hf hraw
      show dictLookup (runQs env t rest (attemptQ env t q s).1).1 k = _
      rw [ih _ k (fun q' hq' => hf q' (by simp [hq'])) hraw,
        attemptQ_lookup_frame env t q s k (hf q (by simp)) hraw]

theorem runQs_rawLookup_frame (env : Env) (t : TimeObj) :
    ∀ (qs : List Quantity) (s : Entries) (k : String),
    (∀ q ∈ qs, k ≠ objKey q ∧ k ≠ errKey q) →
    rawLookup (runQs env t qs s).1 k = rawLookup s k := by
  intro qs
  induction qs with
  | nil => intro s k _; rfl
  | cons q rest ih =>
      intro s k hf
      show rawLookup (runQs env t rest (attemptQ env t q s).1).1 k = _
      rw [ih _ k (fun q' hq' => hf q' (by simp [hq'])),
        attemptQ_rawLookup_frame env t q s k (hf q (by simp)).1
          (hf q (by simp)).2]

theorem runQs_char (env : Env) (t : TimeObj) (q : Quantity) :
    ∀ (qs : List Quantity) (s : Entries), qs.Nodup → q ∈ qs →
    (dictLookup (runQs env t qs s).1 (fieldKey q) =
      (match (computeT q env t).1 with
       | .error _ => dictLookup s (fieldKey q)
       | .ok v => some (extractLabel q v)))
    ∧ (rawLookup (runQs env t qs s).1 (objKey q) =
      (match (computeT q env t).1 with
       | .error _ => rawLookup s (objKey q)
       | .ok v => some (JVal.str v.pyStr)))
    ∧ (rawLookup (runQs env t qs s).1 (errKey q) =
      (match (computeT q env t).1 with
       | .error e => some (JVal.str e)
       | .ok _ => rawLookup s (errKey q))) := by
  intro qs
  induction qs with
  | nil => intro s _ hmem; simp at hmem
  | cons q0 rest ih =>
      intro s hnd hmem
      rw [List.nodup_cons] at hnd
      obtain ⟨hq0, hndr⟩ := hnd
      by_cases hq : q0 = q
      · subst hq
        have hof : ∀ q' ∈ rest, fieldKey q0 ≠ fieldKey q' := by
          intro q' hq'
          exact (crossKeys q0 q' (fun he => hq0 (he ▸ hq'))).1
        have hoe : ∀ q' ∈ rest,
            objKey q0 ≠ objKey q' ∧ objKey q0 ≠ errKey q' := by
          intro q' hq'
          have h := crossKeys q0 q' (fun he => hq0 (he ▸ hq'))
          exact ⟨h.2.1, h.2.2.1⟩
        have hee : ∀ q' ∈ rest,
            errKey q0 ≠ objKey q' ∧ errKey q0 ≠ errKey q' := by
          intro q' hq'
          have h := crossKeys q0 q' (fun he => hq0 (he ▸ hq'))
          exact ⟨h.2.2.2.1, h.2.2.2.2⟩
        have hfin1 := runQs_lookup_frame env t rest (attemptQ env t q0 s).1
          (fieldKey q0) hof (fieldKey_ne_raw q0)
        have hfin2 := runQs_rawLookup_frame env t rest
          (attemptQ env t q0 s).1 (objKey q0) hoe
        have hfin3 := runQs_rawLookup_frame env t rest
          (attemptQ env t q0 s).1 (errKey q0) hee
        rcases hC : (computeT q0 env t).1 with e | v
        · refine ⟨?_, ?_, ?_⟩
          · show dictLookup (runQs env t rest (attemptQ env t q0 s).1).1
                (fieldKey q0) = _
            rw [hfin1, attemptQ_field_of_error env t q0 s e hC]
          · show rawLookup (runQs env t rest (attemptQ env t q0 s).1).1
                (objKey q0) = _
            rw [hfin2, attemptQ_obj_of_error env t q0 s e hC]
          · show rawLookup (runQs env t rest (attemptQ env t q0 s).1).1
                (errKey q0) = _
            rw [hfin3, attemptQ_err_of_error env t q0 s e hC]
        · refine ⟨?_, ?_, ?_⟩
          · show dictLookup (runQs env t rest (attemptQ env t q0 s).1).1
                (fieldKey q0) = _
            rw [hfin1, attemptQ_field_of_ok env t q0 s v hC]
          · show rawLookup (runQs env t rest (attemptQ env t q0 s).1).1
                (objKey q0) = _
            rw [hfin2, attemptQ_obj_of_ok env t q0 s v hC]
          · show rawLookup (runQs env t rest (attemptQ env t q0 s).1).1
                (errKey q0) = _
            rw [hfin3, attemptQ_err_of_ok env t q0 s v hC]
      · have hmem' : q ∈ rest := by
          rcases List.mem_cons.mp hmem with he | hr
          · exact absurd he.symm hq
          · exact hr
        have hck := crossKeys q q0 (fun he => hq (he.symm))
        obtain ⟨hf1, hf2, hf3, hf4, hf5⟩ := hck
        obtain ⟨ih1, ih2, ih3⟩ := ih (attemptQ env t q0 s).1 hndr hmem'
        have hs1 := attemptQ_lookup_frame env t q0 s (fieldKey q) hf1
          (fieldKey_ne_raw q)
        have hs2 := attemptQ_rawLookup_frame env t q0 s (objKey q) hf2 hf3
        have hs3 := attemptQ_rawLookup_frame env t q0 s (errKey q) hf4 hf5
        rcases hC : (computeT q env t).1 with e | v
        · rw [hC] at ih1 ih2 ih3
          refine ⟨?_, ?_, ?_⟩
          · show dictLookup (runQs env t rest (attemptQ env t q0 s).1).1
                (fieldKey q) = _
            rw [ih1, hs1]
          · show rawLookup (runQs env t rest (attemptQ env t q0 s).1).1
                (objKey q) = _
            rw [ih2, hs2]
          · show rawLookup (runQs env t rest (attemptQ env t q0 s).1).1
                (errKey q) = _
            rw [ih3]
        · rw [hC] at ih1 ih2 ih3
          refine ⟨?_, ?_, ?_⟩
          · show dictLookup (runQs env t rest (attemptQ env t q0 s).1).1
                (fieldKey q) = _
            rw [ih1]
          · show rawLookup (runQs env t rest (attemptQ env t q0 s).1).1
                (objKey q) = _
            rw [ih2]
          · show rawLookup (runQs env t rest (attemptQ env t q0 s).1).1
                (errKey q) = _
            rw [ih3, hs3]

/-! ## Presence of the top-level keys -/

theorem presentAll_initShell (d : String) (c : Option String)
    (la lo : Rat) : presentAll (initShell d c la lo) := by
  intro k hk
  fin_cases hk <;> rfl

theorem presentAll_dictSet (s : Entries) (k : String) (v : JVal)
    (h : presentAll s) : presentAll (dictSet s k v) := by
  intro k' hk'
  exact dictLookup_set_isSome s k v k' (h k' hk')

theorem presentAll_rawSet (s : Entries) (k : String) (v : JVal)
    (h : presentAll s) : presentAll (rawSet s k v) := by
  intro k' hk'
  unfold rawSet
  exact dictLookup_set_isSome _ _ _ _ (h k' hk')

theorem presentAll_attemptQ (env : Env) (t : TimeObj) (q : Quantity)
    (s : Entries) (h : presentAll s) :
    presentAll (attemptQ env t q s).1 := by
  unfold attemptQ
  rcases hC : computeT q env t with ⟨r, tr⟩
  cases r with
  | error e => exact presentAll_rawSet _ _ _ h
  | ok v => exact presentAll_rawSet _ _ _ (presentAll_dictSet _ _ _ h)

theorem runQs_presentAll (env : Env) (t : TimeObj) :
    ∀ (qs : List Quantity) (s : Entries), presentAll s →
    presentAll (runQs env t qs s).1
    ∧ ∀ s' ∈ (runQs env t qs s).2.2, presentAll s' := by
  intro qs
  induction qs with
  | nil =>
      intro s h
      exact ⟨h, by simp [runQs]⟩
  | cons q rest ih =>
      intro s h
      have hstep := presentAll_attemptQ env t q s h
      obtain ⟨h1, h2⟩ := ih (attemptQ env t q s).1 hstep
      refine ⟨h1, ?_⟩
      intro s' hs'
      simp only [runQs, List.mem_cons] at hs'
      rcases hs' with rfl | hs'
      · exact hstep
      · exact h2 s' hs'

/-! ## Raw monotonicity -/

theorem mem_rawKeys_of_rawLookup (s : Entries) (k : String) (v : JVal)
    (h : rawLookup s k = some v) : k ∈ rawKeys s :=
  mem_dictKeys_of_lookup (getRaw s) k v h

theorem rawExtends_rawSet (s : Entries) (k : String) (v : JVal)
    (h : k ∉ rawKeys s) : rawExtends s (rawSet s k v) := by
  intro k' v' hl
  have hne : k' ≠ k := by
    intro he
    subst he
    exact h (mem_rawKeys_of_rawLookup _ _ _ hl)
  rw [rawLookup_rawSet_ne s k v k' hne]
  exact hl

theorem rawKeys_dictSet_ne (s : Entries) (k : String) (v : JVal)
    (h : k ≠ "raw") : rawKeys (dictSet s k v) = rawKeys s := by
  unfold rawKeys
  rw [getRaw_dictSet_ne s k v h]

theorem rawKeys_rawSet_subset (s : Entries) (k : String) (v : JVal) :
    ∀ m ∈ rawKeys (rawSet s k v), m ∈ k :: rawKeys s := by
  unfold rawKeys
  rw [getRaw_rawSet]
  exact dictKeys_set_subset _ _ _

theorem attemptQ_rawExtends (env : Env) (t : TimeObj) (q : Quantity)
    (s : Entries) (h1 : objKey q ∉ rawKeys s) (h2 : errKey q ∉ rawKeys s) :
    rawExtends s (attemptQ env t q s).1 := by
  unfold attemptQ
  rcases hC : computeT q env t with ⟨r, tr⟩
  cases r with
  | error e => exact rawExtends_rawSet s (errKey q) _ h2
  | ok v =>
      intro k' v' hl
      have hne : k' ≠ objKey q := by
        intro he
        subst he
        exact h1 (mem_rawKeys_of_rawLookup _ _ _ hl)
      show rawLookup (rawSet (dictSet s (fieldKey q) _) (objKey q) _) k' =
        some v'
      rw [rawLookup_rawSet_ne _ _ _ _ hne,
        rawLookup_dictSet_ne _ _ _ _ (fieldKey_ne_raw q)]
      exact hl

theorem attemptQ_rawKeys (env : Env) (t : TimeObj) (q : Quantity)
    (s : Entries) :
    ∀ m ∈ rawKeys (attemptQ env t q s).1,
      m ∈ objKey q :: errKey q :: rawKeys s := by
  unfold attemptQ
  rcases hC : computeT q env t with ⟨r, tr⟩
  cases r with
  | error e =>
      intro m hm
      have h := rawKeys_rawSet_subset s (errKey q) _ m hm
      simp only [List.mem_cons] at h ⊢
      tauto
  | ok v =>
      intro m hm
      have h := rawKeys_rawSet_subset (dictSet s (fieldKey q) _)
        (objKey q) _ m hm
      rw [rawKeys_dictSet_ne _ _ _ (fieldKey_ne_raw q)] at h
      simp only [List.mem_cons] at h ⊢
      tauto

theorem runQs_chain (env : Env) (t : TimeObj) :
    ∀ (qs : List Quantity) (s : Entries), qs.Nodup →
    (∀ q ∈ qs, objKey q ∉ rawKeys s ∧ errKey q ∉ rawKeys s) →
    List.Chain' rawExtends (s :: (runQs env t qs s).2.2)
    ∧ (∀ m ∈ rawKeys (runQs env t qs s).1,
        m ∈ (qs.flatMap fun q => [objKey q, errKey q]) ++ rawKeys s) := by
  intro qs
  induction qs with
  | nil =>
      intro s _ _
      refine ⟨by simp [runQs], ?_⟩
      intro m hm
      simpa [runQs] using hm
  | cons q rest ih =>
      intro s hnd hfresh
      rw [List.nodup_cons] at hnd
      obtain ⟨hq, hndr⟩ := hnd
      obtain ⟨hobj, herr⟩ := hfresh q (by simp)
      have hext : rawExtends s (attemptQ env t q s).1 :=
        attemptQ_rawExtends env t q s hobj herr
      have hkeys := attemptQ_rawKeys env t q s
      have hfresh' : ∀ q' ∈ rest,
          objKey q' ∉ rawKeys (attemptQ env t q s).1
          ∧ errKey q' ∉ rawKeys (attemptQ env t q s).1 := by
        intro q' hq'
        have hne : q ≠ q' := fun he => hq (he ▸ hq')
        obtain ⟨_, hoo, hoe, heo, hee⟩ := crossKeys q' q (Ne.symm hne)
        obtain ⟨ho', he'⟩ := hfresh q' (by simp [hq'])
        constructor
        · intro hmem
          have h := hkeys _ hmem
          simp only [List.mem_cons] at h
          rcases h with h | h | h
          · exact hoo h
          · exact hoe h
          · exact ho' h
        · intro hmem
          have h := hkeys _ hmem
          simp only [List.mem_cons] at h
          rcases h with h | h | h
          · exact heo h
          · exact hee h
          · exact he' h
      obtain ⟨hchain, hsub⟩ := ih (attemptQ env t q s).1 hndr hfresh'
      constructor
      · show List.Chain' rawExtends (s :: (attemptQ env t q s).1 ::
          (runQs env t rest (attemptQ env t q s).1).2.2)
        exact List.chain'_cons.mpr ⟨hext, hchain⟩
      · intro m hm
        have h := hsub m
          (by simpa only [runQs] using hm)
        simp only [List.mem_append, List.flatMap_cons, List.mem_cons] at h ⊢
        rcases h with h | h
        · tauto
        · have h' := hkeys _ h
          simp only [List.mem_cons] at h'
          tauto

theorem runQs_getLast (env : Env) (t : TimeObj) :
    ∀ (qs : List Quantity) (s : Entries),
    (s :: (runQs env t qs s).2.2).getLast? = some (runQs env t qs s).1 := by
  intro qs
  induction qs with
  | nil => intro s; rfl
  | cons q rest ih =>
      intro s
      show (s :: (attemptQ env t q s).1 ::
        (runQs env t rest (attemptQ env t q s).1).2.2).getLast? = _
      rw [List.getLast?_cons_cons]
      exact ih (attemptQ env t q s).1

/-! ## Trace-shape helpers -/

theorem orElseT_two (env : Env) (n1 n2 : String) (a1 a2 : List TimeObj) :
    ((orElseT (safe_callT env n1 a1) (fun _ => safe_callT env n2 a2)).2 = [n1]
     ∨ (orElseT (safe_callT env n1 a1)
        (fun _ => safe_callT env n2 a2)).2 = [n1, n2])
    ∧ (2 ≤ (orElseT (safe_callT env n1 a1)
        (fun _ => safe_callT env n2 a2)).2.length →
        ∃ v, safe_call env n1 a1 = .ok v ∧ v.pyTruthy = false) := by
  rcases hS : safe_call env n1 a1 with e | v
  · refine ⟨Or.inl ?_, ?_⟩
    · simp [orElseT, safe_callT, hS]
    · intro h2
      simp [orElseT, safe_callT, hS] at h2
  · by_cases hv : v.pyTruthy
    · refine ⟨Or.inl ?_, ?_⟩
      · simp [orElseT, safe_callT, hS, hv]
      · intro h2
        simp [orElseT, safe_callT, hS, hv] at h2
    · refine ⟨Or.inr ?_, ?_⟩
      · simp [orElseT, safe_callT, hS, hv]
      · intro _
        exact ⟨v, rfl, by simpa using hv⟩

theorem orElseT_three (env : Env) (n1 n2 n3 : String)
    (a1 a2 a3 : List TimeObj) :
    ((orElseT (orElseT (safe_callT env n1 a1) (fun _ => safe_callT env n2 a2))
        (fun _ => safe_callT env n3 a3)).2 = [n1]
     ∨ (orElseT (orElseT (safe_callT env n1 a1)
          (fun _ => safe_callT env n2 a2))
        (fun _ => safe_callT env n3 a3)).2 = [n1, n2]
     ∨ (orElseT (orElseT (safe_callT env n1 a1)
          (fun _ => safe_callT env n2 a2))
        (fun _ => safe_callT env n3 a3)).2 = [n1, n2, n3])
    ∧ (2 ≤ (orElseT (orElseT (safe_callT env n1 a1)
          (fun _ => safe_callT env n2 a2))
        (fun _ => safe_callT env n3 a3)).2.length →
        ∃ v, safe_call env n1 a1 = .ok v ∧ v.pyTruthy = false) := by
  rcases hS : safe_call env n1 a1 with e | v
  · refine ⟨Or.inl ?_, ?_⟩
    · simp [orElseT, safe_callT, hS]
    · intro h2
      simp [orElseT, safe_callT, hS] at h2
  · by_cases hv : v.pyTruthy
    · refine ⟨Or.inl ?_, ?_⟩
      · simp [orElseT, safe_callT, hS, hv]
      · intro h2
        simp [orElseT, safe_callT, hS, hv] at h2
    · rcases hS2 : safe_call env n2 a2 with e2 | w
      · refine ⟨Or.inr (Or.inl ?_), ?_⟩
        · simp [orElseT, safe_callT, hS, hv, hS2]
        · intro _
          exact ⟨v, rfl, by simpa using hv⟩
      · by_cases hw : w.pyTruthy
        · refine ⟨Or.inr (Or.inl ?_), ?_⟩
          · simp [orElseT, safe_callT, hS, hv, hS2, hw]
          · intro _
            exact ⟨v, rfl, by simpa using hv⟩
        · refine ⟨Or.inr (Or.inr ?_), ?_⟩
          · simp [orElseT, safe_callT, hS, hv, hS2, hw]
          · intro _
            exact ⟨v, rfl, by simpa using hv⟩

theorem computeT_tithi_trace (env : Env) (t : TimeObj) :
    ((computeT Quantity.tithi env t).2 = ["TithiAtTime"]
     ∨ (computeT Quantity.tithi env t).2 = ["TithiAtTime", "AllTithiData"])
    ∧ (2 ≤ (computeT Quantity.tithi env t).2.length →
        safe_call env "TithiAtTime" [t] = .ok PyVal.vnone) := by
  rcases hS : safe_call env "TithiAtTime" [t] with e | v
  · refine ⟨Or.inl ?_, ?_⟩
    · simp [computeT, safe_callT, hS]
    · intro h2
      simp [computeT, safe_callT, hS] at h2
  · by_cases hv : v = PyVal.vnone
    · subst hv
      refine ⟨Or.inr ?_, fun _ => rfl⟩
      simp [computeT, safe_callT, hS]
    · refine ⟨Or.inl ?_, ?_⟩
      · simp [computeT, safe_callT, hS, hv]
      · intro h2
        simp [computeT, safe_callT, hS, hv] at h2

theorem computeT_trace_ne_nil (q : Quantity) (env : Env) (t : TimeObj) :
    (computeT q env t).2 ≠ [] := by
  cases q with
  | tithi =>
      rcases (computeT_tithi_trace env t).1 with h | h <;> simp [h]
  | nakshatra =>
      rcases (orElseT_two env "NakshatraAtTime" "AllNakshatraData"
        [t] [t]).1 with h | h <;> simp [computeT, h]
  | yoga =>
      rcases (orElseT_two env "YogaAtTime" "AllYogaData" [t] [t]).1
        with h | h <;> simp [computeT, h]
  | karan =>
      rcases (orElseT_two env "KaranAtTime" "AllKaranData" [t] [t]).1
        with h | h <;> simp [computeT, h]
  | rahu =>
      rcases (orElseT_three env "RahuKaalAtDate" "GetRahuKaal" "RahuKaal"
        [t] [t] []).1 with h | h | h <;> simp [computeT, h]
  | gulika =>
      rcases (orElseT_three env "GulikaAtDate" "GetGulika" "Gulika"
        [t] [t] []).1 with h | h | h <;> simp [computeT, h]
  | abhijit =>
      rcases (orElseT_two env "AbhijitAtDate" "GetAbhijit" [t] [t]).1
        with h | h <;> simp [computeT, h]

/-! ## quantList and initShell facts -/

theorem quantList_nodup : quantList.Nodup := by decide

theorem mem_quantList (q : Quantity) : q ∈ quantList := by
  cases q <;> simp [quantList]

theorem initShell_field (d : String) (c : Option String) (la lo : Rat)
    (q : Quantity) :
    dictLookup (initShell d c la lo) (fieldKey q) = some JVal.null := by
  cases q <;> rfl

theorem initShell_raw (d : String) (c : Option String) (la lo : Rat) :
    getRaw (initShell d c la lo) = [] := rfl

theorem initShell_rawLookup (d : String) (c : Option String) (la lo : Rat)
    (k : String) : rawLookup (initShell d c la lo) k = none := rfl

theorem initShell_rawKeys (d : String) (c : Option String) (la lo : Rat) :
    rawKeys (initShell d c la lo) = [] := rfl

/-! ## write_to_sheet success characterization -/

theorem write_to_sheet_true_iff (senv : SheetEnv) (r : Entries) :
    (write_to_sheetT senv r).1 = true ↔
      (pyFalsyOpt senv.googleServiceAccountJson = false
       ∧ pyFalsyOpt senv.gsheetId = false
       ∧ exOk senv.libLoad = true ∧ exOk senv.parseCreds = true
       ∧ exOk senv.keyfile = true ∧ exOk senv.authGrant = true
       ∧ exOk senv.openByKey = true
       ∧ (exOk senv.wsLookup = true
          ∨ (exOk senv.addWorksheet = true
             ∧ exOk senv.insertHeader = true))
       ∧ exOk senv.appendRow = true) := by
  by_cases hc : (pyFalsyOpt senv.googleServiceAccountJson
      || pyFalsyOpt senv.gsheetId) = true
  · rw [write_to_sheetT, if_pos hc]
    simp only [Bool.or_eq_true] at hc
    constructor
    · intro hx
      exact absurd hx (by simp)
    · rintro ⟨ha, hb, _⟩
      rcases hc with h | h
      · rw [ha] at h; exact absurd h (by simp)
      · rw [hb] at h; exact absurd h (by simp)
  · rw [write_to_sheetT, if_neg hc]
    have hcc : pyFalsyOpt senv.googleServiceAccountJson = false
        ∧ pyFalsyOpt senv.gsheetId = false := by
      constructor <;>
        (revert hc
         cases pyFalsyOpt senv.googleServiceAccountJson <;>
           cases pyFalsyOpt senv.gsheetId <;> simp)
    rcases hL : senv.libLoad with eL | uL
    · simp [hL, exOk]
    · rcases hP : senv.parseCreds with eP | uP
      · simp [hP, exOk]
      · rcases hK : senv.keyfile with eK | uK
        · simp [hK, exOk]
        · rcases hA : senv.authGrant with eA | uA
          · simp [hA, exOk]
          · rcases hO : senv.openByKey with eO | uO
            · simp [hO, exOk]
            · rcases hW : senv.wsLookup with eW | uW
              · rcases hAd : senv.addWorksheet with eAd | uAd
                · simp [hW, hAd, exOk, hcc, hL, hP, hK, hA, hO]
                · rcases hI : senv.insertHeader with eI | uI
                  · simp [hW, hAd, hI, exOk, hcc, hL, hP, hK, hA, hO]
                  · rcases hAp : senv.appendRow with eAp | uAp
                    · simp [hW, hAd, hI, hAp, exOk, hcc, hL, hP, hK, hA, hO]
                    · simp [hW, hAd, hI, hAp, exOk, hcc, hL, hP, hK, hA, hO]
              · rcases hAp : senv.appendRow with eAp | uAp
                · simp [hW, hAp, exOk, hcc, hL, hP, hK, hA, hO]
                · simp [hW, hAp, exOk, hcc, hL, hP, hK, hA, hO]

/-! ## Claim theorems -/

/-- C8: the tz query parameter has no effect on the response: two requests
identical except for tz produce identical runs, and in particular identical
responses; the fallback time string is built with the hardcoded +05:30
offset independently of tz. -/
theorem c8_tz_no_effect (env : Env) (date0 : Option String) (lat lon : Rat)
    (tz tz' : String) (city : Option String) :
    get_panchangT env date0 lat lon tz city =
      get_panchangT env date0 lat lon tz' city
    ∧ get_panchang env date0 lat lon tz city =
      get_panchang env date0 lat lon tz' city :=
  ⟨rfl, rfl⟩

/-- C9: the Stub Responder (modelled from the spec; the POST handler is not
present under src/) performs no external computation — it is a pure
function of the request body — and returns the fixed-shape success payload:
status "ok", the literal tithi "Pratipada", nakshatra "Rohini", sunrise
"06:28", sunset "17:48", and the input date, lat, lon and city echoed
unchanged. -/
theorem c9_stub_responder_fixed (date : String) (lat lon : Rat)
    (city : String) :
    dictLookup (stub_responder date lat lon city) "status" =
        some (JVal.str "ok")
    ∧ dictLookup (stub_responder date lat lon city) "tithi" =
        some (JVal.str "Pratipada")
    ∧ dictLookup (stub_responder date lat lon city) "nakshatra" =
        some (JVal.str "Rohini")
    ∧ dictLookup (stub_responder date lat lon city) "sunrise" =
        some (JVal.str "06:28")
    ∧ dictLookup (stub_responder date lat lon city) "sunset" =
        some (JVal.str "17:48")
    ∧ dictLookup (stub_responder date lat lon city) "date" =
        some (JVal.str date)
    ∧ dictLookup (stub_responder date lat lon city) "lat" =
        some (JVal.num lat)
    ∧ dictLookup (stub_responder date lat lon city) "lon" =
        some (JVal.num lon)
    ∧ dictLookup (stub_responder date lat lon city) "city" =
        some (JVal.str city) :=
  ⟨rfl, rfl, rfl, rfl, rfl, rfl, rfl, rfl, rfl⟩

/-- C3: with the facility available, safe_call tries the canonical name
first and then exactly the variants lowercase, uppercase, capitalized,
"All"+name, "Get"+name in that order: if the k-th name of this search order
is bound to a callable while all earlier names are not, the callable is
invoked with the supplied arguments and its result returned (so no later
variant matters), and if no name in the search order resolves to a callable
the call returns None rather than an error. -/
theorem c3_safe_call_dispatch (env : Env) (name : String)
    (args : List TimeObj) (h : env.avail = true) :
    (∀ (k : Nat) (n : String) (f : List TimeObj → Except String PyVal),
      (searchOrder name)[k]? = some n →
      (∀ m ∈ (searchOrder name).take k, env.calcAttr m = none) →
      env.calcAttr n = some f →
      safe_call env name args = f args)
    ∧ ((∀ m ∈ searchOrder name, env.calcAttr m = none) →
      safe_call env name args = .ok PyVal.vnone) := by
  constructor
  · intro k n f hget hnone hf
    unfold safe_call
    rw [h, if_neg (by decide : ¬ (true = false))]
    cases k with
    | zero =>
        simp only [searchOrder, List.getElem?_cons_zero, Option.some.injEq]
          at hget
        subst hget
        rw [hf]
    | succ k' =>
        have hname : env.calcAttr name = none :=
          hnone name (by simp [searchOrder])
        rw [hname]
        have hget' : (altNames name)[k']? = some n := by
          simpa [searchOrder] using hget
        have hnone' : ∀ m ∈ (altNames name).take k',
            env.calcAttr m = none := by
          intro m hm
          apply hnone m
          simp only [searchOrder, List.take_succ_cons, List.mem_cons]
          exact Or.inr hm
        rw [findCallable_eq_of_first env.calcAttr (altNames name) k' n f
          hget' hnone' hf]
  · intro hall
    unfold safe_call
    rw [h, if_neg (by decide : ¬ (true = false))]
    rw [hall name (by simp [searchOrder]),
      findCallable_eq_none env.calcAttr (altNames name)
        (fun m hm => hall m (by simp [searchOrder, hm]))]

/-- C3 witness: in envCap only the capitalized variant Tithi of the probed
name TITHI is callable, and safe_call dispatches to it. -/
theorem c3_safe_call_dispatch_witness :
    safe_call envCap "TITHI" [] =
      .ok (PyVal.vobj (some "cap") "capObj" true) :=
  (c3_safe_call_dispatch envCap "TITHI" [] rfl).1 3 "Tithi"
    (fun _ => .ok (PyVal.vobj (some "cap") "capObj" true))
    (by rfl)
    (by
      intro m hm
      fin_cases hm <;> rfl)
    (by rfl)

/-- C2: when the facility failed to initialize, the handler still returns a
success (HTTP 200) response whose seven quantity fields are all null and
whose raw map is exactly the single unavailability entry carrying the
original import error message; no probe call and no sheet operation is
attempted. -/
theorem c2_unavailable_short_circuit (env : Env) (date0 : Option String)
    (lat lon : Rat) (tz : String) (city : Option String)
    (h : env.avail = false) :
    (get_panchangT env date0 lat lon tz city).response =
      .ok (rawSet (initShell (resolveDate date0 env.today) city lat lon)
        "error" (JVal.str ("vedastro not installed on server: "
          ++ env.unavailMsg)))
    ∧ (∀ q : Quantity,
        dictLookup (rawSet (initShell (resolveDate date0 env.today) city
          lat lon) "error" (JVal.str ("vedastro not installed on server: "
          ++ env.unavailMsg))) (fieldKey q) = some JVal.null)
    ∧ getRaw (rawSet (initShell (resolveDate date0 env.today) city lat lon)
        "error" (JVal.str ("vedastro not installed on server: "
          ++ env.unavailMsg))) =
      [("error", JVal.str ("vedastro not installed on server: "
        ++ env.unavailMsg))]
    ∧ (get_panchangT env date0 lat lon tz city).probes = []
    ∧ (get_panchangT env date0 lat lon tz city).sheetOps = [] := by
  refine ⟨?_, ?_, ?_, ?_, ?_⟩
  · simp [get_panchangT, h]
  · intro q
    cases q <;> rfl
  · rfl
  · simp [get_panchangT, h]
  · simp [get_panchangT, h]

/-- C2 witness: the concrete unavailable environment. -/
theorem c2_unavailable_short_circuit_witness :
    (get_panchangT envOff none 1 2 "Asia/Kolkata" (some "Jaipur")).probes
      = []
    ∧ (get_panchangT envOff none 1 2 "Asia/Kolkata"
        (some "Jaipur")).response =
      .ok (rawSet (initShell "2025-01-01" (some "Jaipur") 1 2) "error"
        (JVal.str ("vedastro not installed on server: "
          ++ "no module named vedastro"))) :=
  ⟨(c2_unavailable_short_circuit envOff none 1 2 "Asia/Kolkata"
      (some "Jaipur") rfl).2.2.2.1,
   (c2_unavailable_short_circuit envOff none 1 2 "Asia/Kolkata"
      (some "Jaipur") rfl).1⟩

/-- C10: when the facility is unavailable the handler returns before the
persistence step: no sheet operation is attempted even with persistence
fully configured, and the returned raw map binds neither sheet_written nor
sheet_error. -/
theorem c10_no_sheet_when_unavailable (env : Env) (date0 : Option String)
    (lat lon : Rat) (tz : String) (city : Option String)
    (h : env.avail = false) :
    (get_panchangT env date0 lat lon tz city).sheetOps = []
    ∧ ∀ R, (get_panchangT env date0 lat lon tz city).response = .ok R →
        rawLookup R "sheet_written" = none
        ∧ rawLookup R "sheet_error" = none := by
  constructor
  · simp [get_panchangT, h]
  · intro R hR
    simp [get_panchangT, h] at hR
    subst hR
    constructor
    · rfl
    · rfl

/-- C10 witness: unavailable facility with persistence fully configured. -/
theorem c10_no_sheet_when_unavailable_witness :
    (get_panchangT envOffSheetOn none 1 2 "Asia/Kolkata"
      (some "Jaipur")).sheetOps = []
    ∧ rawLookup (rawSet (initShell "2025-01-01" (some "Jaipur") 1 2)
        "error" (JVal.str ("vedastro not installed on server: "
          ++ "no module named vedastro"))) "sheet_written" = none :=
  ⟨(c10_no_sheet_when_unavailable envOffSheetOn none 1 2 "Asia/Kolkata"
      (some "Jaipur") rfl).1,
   ((c10_no_sheet_when_unavailable envOffSheetOn none 1 2 "Asia/Kolkata"
      (some "Jaipur") rfl).2
     (rawSet (initShell "2025-01-01" (some "Jaipur") 1 2) "error"
       (JVal.str ("vedastro not installed on server: "
         ++ "no module named vedastro"))) rfl).1⟩

/-- C7: the location handle is constructed trying the argument order
(city, lon, lat) first and (city, lat, lon) on failure; when both fail the
second failure is not caught at the construction site and the top-level
handler converts it into a 500 response carrying that exception's message
and the trace text. -/
theorem c7_geo_order_and_propagation (env : Env) (date0 : Option String)
    (lat lon : Rat) (tz : String) (city : Option String) (e1 e2 : String)
    (havail : env.avail = true)
    (h1 : env.geoCtor city lon lat = .error e1)
    (h2 : env.geoCtor city lat lon = .error e2) :
    mkGeo env city lat lon = .error e2
    ∧ (get_panchangT env date0 lat lon tz city).response =
        .error ⟨500, "Server error: " ++ e2 ++ "\n" ++ env.tb⟩ := by
  have hg : mkGeo env city lat lon = .error e2 := by
    unfold mkGeo
    rw [h1]
    exact h2
  refine ⟨hg, ?_⟩
  simp [get_panchangT, havail, hg]

/-- C7 witness: both constructor orders fail with distinct messages; the
second order's message is the one the 500 response carries. -/
theorem c7_geo_order_and_propagation_witness :
    (get_panchangT envGeoFail none 1 2 "Asia/Kolkata"
      (some "Jaipur")).response =
      .error ⟨500, "Server error: " ++ "latlon failed" ++ "\n" ++ "TB"⟩ :=
  (c7_geo_order_and_propagation envGeoFail none 1 2 "Asia/Kolkata"
    (some "Jaipur") "lonlat failed" "latlon failed" rfl rfl rfl).2

/-- C5: persistence is best-effort: with either configuration value falsy
the recorder attempts no backend operation and reports false; the recorder
reports true exactly when configuration is present and every step of the
sequence (library load, credential parse, keyfile, authorize, open,
worksheet lookup or its creation, append) succeeds, so any failure is
caught and reported as false; and whatever the sheet environment does the
parent request still returns its assembled result with the recorder's
outcome merged under sheet_written. -/
theorem c5_best_effort_recorder (senv : SheetEnv) (r : Entries) (env : Env)
    (date0 : Option String) (lat lon : Rat) (tz : String)
    (city : Option String) (g : GeoLoc) (t : TimeObj)
    (havail : env.avail = true)
    (hg : mkGeo env city lat lon = .ok g)
    (ht : mkTime env (resolveDate date0 env.today) g = .ok t) :
    ((pyFalsyOpt senv.googleServiceAccountJson = true
      ∨ pyFalsyOpt senv.gsheetId = true) →
      write_to_sheetT senv r = (false, []))
    ∧ ((write_to_sheetT senv r).1 = true ↔
        (pyFalsyOpt senv.googleServiceAccountJson = false
         ∧ pyFalsyOpt senv.gsheetId = false
         ∧ exOk senv.libLoad = true ∧ exOk senv.parseCreds = true
         ∧ exOk senv.keyfile = true ∧ exOk senv.authGrant = true
         ∧ exOk senv.openByKey = true
         ∧ (exOk senv.wsLookup = true
            ∨ (exOk senv.addWorksheet = true
               ∧ exOk senv.insertHeader = true))
         ∧ exOk senv.appendRow = true))
    ∧ (get_panchangT env date0 lat lon tz city).response =
        .ok (rawSet (runQs env t quantList
            (initShell (resolveDate date0 env.today) city lat lon)).1
          "sheet_written"
          (JVal.bool (write_to_sheetT env.sheet
            (runQs env t quantList
              (initShell (resolveDate date0 env.today) city lat
                lon)).1).1)) := by
  refine ⟨?_, write_to_sheet_true_iff senv r, ?_⟩
  · intro h
    rcases h with h | h
    · rw [write_to_sheetT, if_pos (by simp [h])]
    · rw [write_to_sheetT, if_pos (by simp [h])]
  · simp [get_panchangT, havail, hg, ht]

/-- C5 witness: unconfigured persistence attempts nothing, and the parent
request (with the facility available and construction succeeding) returns
its assembled result. -/
theorem c5_best_effort_recorder_witness :
    write_to_sheetT sheetEnvOff [] = (false, [])
    ∧ (get_panchangT envCap none 1 2 "Asia/Kolkata"
        (some "Jaipur")).response =
      .ok (rawSet (runQs envCap ⟨0⟩ quantList
          (initShell "2025-01-01" (some "Jaipur") 1 2)).1
        "sheet_written"
        (JVal.bool (write_to_sheetT envCap.sheet
          (runQs envCap ⟨0⟩ quantList
            (initShell "2025-01-01" (some "Jaipur") 1 2)).1).1)) :=
  ⟨(c5_best_effort_recorder sheetEnvOff [] envCap none 1 2 "Asia/Kolkata"
      (some "Jaipur") ⟨0⟩ ⟨0⟩ rfl rfl rfl).1 (Or.inl rfl),
   (c5_best_effort_recorder sheetEnvOff [] envCap none 1 2 "Asia/Kolkata"
      (some "Jaipur") ⟨0⟩ ⟨0⟩ rfl rfl rfl).2.2⟩

/-- C6 counterexample: in an environment where no Calculate attribute
resolves, the rahu_kaal block issues three prober calls, and its fallback
names GetRahuKaal and RahuKaal are not of the form "All"+primary; the full
assembler trace shows the same for gulika_kaal, and abhijit's fallback is
"Get"-, not "All"-prefixed. -/
theorem c6_counterexample :
    (computeT Quantity.rahu envNone ⟨0⟩).2 =
      ["RahuKaalAtDate", "GetRahuKaal", "RahuKaal"]
    ∧ 2 < (computeT Quantity.rahu envNone ⟨0⟩).2.length
    ∧ (get_panchangT envNone none 1 2 "Asia/Kolkata"
        (some "Jaipur")).probes =
      ["TithiAtTime", "AllTithiData", "NakshatraAtTime",
       "AllNakshatraData", "YogaAtTime", "AllYogaData", "KaranAtTime",
       "AllKaranData", "RahuKaalAtDate", "GetRahuKaal", "RahuKaal",
       "GulikaAtDate", "GetGulika", "Gulika", "AbhijitAtDate",
       "GetAbhijit"]
    ∧ "GetRahuKaal" ≠ "All" ++ "RahuKaalAtDate"
    ∧ "RahuKaal" ≠ "All" ++ "RahuKaalAtDate"
    ∧ "GetAbhijit" ≠ "All" ++ "AbhijitAtDate" := by
  refine ⟨rfl, by decide, rfl, by decide, by decide, by decide⟩

/-- C6 (amended): each quantity's block issues the prober calls of its
fixed probe list in order, so its trace is a nonempty initial segment of
that list — at most two calls for tithi, nakshatra, yoga and karan (primary
then "All"-name), at most two for abhijit (primary then "Get"-name), and at
most three for rahu_kaal and gulika_kaal (primary, "Get"-name, bare name) —
and a fallback call is made only when the primary call returned a falsy
value without raising (for tithi, only when it returned None); the
assembler's probe trace is the concatenation of the per-quantity traces. -/
theorem c6_probe_calls_amended (env : Env) (t : TimeObj) (q : Quantity) :
    (∃ l, (computeT q env t).2 ++ l = probeNames q)
    ∧ (computeT q env t).2 ≠ []
    ∧ (probeNames q).length ≤ 3
    ∧ (2 ≤ (computeT q env t).2.length →
        ∃ v, safe_call env (primaryName q) [t] = .ok v
          ∧ v.pyTruthy = false
          ∧ (q = Quantity.tithi → v = PyVal.vnone))
    ∧ (∀ s : Entries,
        (runQs env t quantList s).2.1 = probesOf env t quantList) := by
  refine ⟨?_, computeT_trace_ne_nil q env t, by cases q <;> decide, ?_,
    fun s => runQs_trace env t quantList s⟩
  · cases q with
    | tithi =>
        rcases (computeT_tithi_trace env t).1 with h | h
        · exact ⟨["AllTithiData"], by rw [h]; rfl⟩
        · exact ⟨[], by rw [h]; rfl⟩
    | nakshatra =>
        rcases (orElseT_two env "NakshatraAtTime" "AllNakshatraData"
          [t] [t]).1 with h | h
        · exact ⟨["AllNakshatraData"], by simp only [computeT]; rw [h]; rfl⟩
        · exact ⟨[], by simp only [computeT]; rw [h]; rfl⟩
    | yoga =>
        rcases (orElseT_two env "YogaAtTime" "AllYogaData" [t] [t]).1
          with h | h
        · exact ⟨["AllYogaData"], by simp only [computeT]; rw [h]; rfl⟩
        · exact ⟨[], by simp only [computeT]; rw [h]; rfl⟩
    | karan =>
        rcases (orElseT_two env "KaranAtTime" "AllKaranData" [t] [t]).1
          with h | h
        · exact ⟨["AllKaranData"], by simp only [computeT]; rw [h]; rfl⟩
        · exact ⟨[], by simp only [computeT]; rw [h]; rfl⟩
    | rahu =>
        rcases (orElseT_three env "RahuKaalAtDate" "GetRahuKaal" "RahuKaal"
          [t] [t] []).1 with h | h | h
        · exact ⟨["GetRahuKaal", "RahuKaal"],
            by simp only [computeT]; rw [h]; rfl⟩
        · exact ⟨["RahuKaal"], by simp only [computeT]; rw [h]; rfl⟩
        · exact ⟨[], by simp only [computeT]; rw [h]; rfl⟩
    | gulika =>
        rcases (orElseT_three env "GulikaAtDate" "GetGulika" "Gulika"
          [t] [t] []).1 with h | h | h
        · exact ⟨["GetGulika", "Gulika"],
            by simp only [computeT]; rw [h]; rfl⟩
        · exact ⟨["Gulika"], by simp only [computeT]; rw [h]; rfl⟩
        · exact ⟨[], by simp only [computeT]; rw [h]; rfl⟩
    | abhijit =>
        rcases (orElseT_two env "AbhijitAtDate" "GetAbhijit" [t] [t]).1
          with h | h
        · exact ⟨["GetAbhijit"], by simp only [computeT]; rw [h]; rfl⟩
        · exact ⟨[], by simp only [computeT]; rw [h]; rfl⟩
  · cases q with
    | tithi =>
        intro hlen
        exact ⟨PyVal.vnone, (computeT_tithi_trace env t).2 hlen, rfl,
          fun _ => rfl⟩
    | nakshatra =>
        intro hlen
        obtain ⟨v, hv1, hv2⟩ := (orElseT_two env "NakshatraAtTime"
          "AllNakshatraData" [t] [t]).2 (by simpa [computeT] using hlen)
        exact ⟨v, hv1, hv2, by intro h; simp at h⟩
    | yoga =>
        intro hlen
        obtain ⟨v, hv1, hv2⟩ := (orElseT_two env "YogaAtTime" "AllYogaData"
          [t] [t]).2 (by simpa [computeT] using hlen)
        exact ⟨v, hv1, hv2, by intro h; simp at h⟩
    | karan =>
        intro hlen
        obtain ⟨v, hv1, hv2⟩ := (orElseT_two env "KaranAtTime"
          "AllKaranData" [t] [t]).2 (by simpa [computeT] using hlen)
        exact ⟨v, hv1, hv2, by intro h; simp at h⟩
    | rahu =>
        intro hlen
        obtain ⟨v, hv1, hv2⟩ := (orElseT_three env "RahuKaalAtDate"
          "GetRahuKaal" "RahuKaal" [t] [t] []).2
          (by simpa [computeT] using hlen)
        exact ⟨v, hv1, hv2, by intro h; simp at h⟩
    | gulika =>
        intro hlen
        obtain ⟨v, hv1, hv2⟩ := (orElseT_three env "GulikaAtDate"
          "GetGulika" "Gulika" [t] [t] []).2
          (by simpa [computeT] using hlen)
        exact ⟨v, hv1, hv2, by intro h; simp at h⟩
    | abhijit =>
        intro hlen
        obtain ⟨v, hv1, hv2⟩ := (orElseT_two env "AbhijitAtDate"
          "GetAbhijit" [t] [t]).2 (by simpa [computeT] using hlen)
        exact ⟨v, hv1, hv2, by intro h; simp at h⟩

/-- C6 amended witness: in envNone the rahu primary call returns None. -/
theorem c6_probe_calls_amended_witness :
    ∃ v, safe_call envNone (primaryName Quantity.rahu) [⟨0⟩] = .ok v
      ∧ v.pyTruthy = false
      ∧ (Quantity.rahu = Quantity.tithi → v = PyVal.vnone) :=
  (c6_probe_calls_amended envNone ⟨0⟩ Quantity.rahu).2.2.2.1 (by decide)

/-- C1: with the facility available, if the Calculate table is changed only
on the names belonging to quantity q and q's computation then raises with
message e, the final assembled state records exactly e under q's error
diagnostic, leaves q's field null and q's object diagnostic absent, while
every other quantity's field, object and error diagnostics — and its probe
calls — are exactly those of the unchanged environment, and every quantity
(q included) still issues at least one probe call. -/
theorem c1_quantity_isolation (env : Env)
    (calcAttr' : String → Option (List TimeObj → Except String PyVal))
    (t : TimeObj) (q : Quantity) (e : String) (date : String)
    (city : Option String) (lat lon : Rat)
    (hag : ∀ q' : Quantity, q' ≠ q → ∀ n ∈ nameClosure q',
      calcAttr' n = env.calcAttr n)
    (havail : env.avail = true)
    (herr : (computeT q { env with calcAttr := calcAttr' } t).1 =
      .error e) :
    (dictLookup (runQs { env with calcAttr := calcAttr' } t quantList
        (initShell date city lat lon)).1 (fieldKey q) = some JVal.null
     ∧ rawLookup (runQs { env with calcAttr := calcAttr' } t quantList
        (initShell date city lat lon)).1 (errKey q) = some (JVal.str e)
     ∧ rawLookup (runQs { env with calcAttr := calcAttr' } t quantList
        (initShell date city lat lon)).1 (objKey q) = none)
    ∧ (∀ q' : Quantity, q' ≠ q →
        dictLookup (runQs { env with calcAttr := calcAttr' } t quantList
          (initShell date city lat lon)).1 (fieldKey q') =
          dictLookup (runQs env t quantList
            (initShell date city lat lon)).1 (fieldKey q')
        ∧ rawLookup (runQs { env with calcAttr := calcAttr' } t quantList
            (initShell date city lat lon)).1 (objKey q') =
          rawLookup (runQs env t quantList
            (initShell date city lat lon)).1 (objKey q')
        ∧ rawLookup (runQs { env with calcAttr := calcAttr' } t quantList
            (initShell date city lat lon)).1 (errKey q') =
          rawLookup (runQs env t quantList
            (initShell date city lat lon)).1 (errKey q'))
    ∧ (∀ q' : Quantity, q' ≠ q →
        (computeT q' { env with calcAttr := calcAttr' } t).2 =
          (computeT q' env t).2)
    ∧ (∀ q' : Quantity,
        (computeT q' { env with calcAttr := calcAttr' } t).2 ≠ []) := by
  have hcongr : ∀ q' : Quantity, q' ≠ q →
      computeT q' { env with calcAttr := calcAttr' } t =
        computeT q' env t := by
    intro q' hq'
    exact computeT_congr q' { env with calcAttr := calcAttr' } env t rfl
      rfl (fun n hn => hag q' hq' n hn)
  refine ⟨?_, ?_, ?_, ?_⟩
  · obtain ⟨hf, ho, he⟩ := runQs_char { env with calcAttr := calcAttr' }
      t q quantList (initShell date city lat lon) quantList_nodup
      (mem_quantList q)
    rw [herr] at hf ho he
    refine ⟨?_, he, ?_⟩
    · rw [hf]
      exact initShell_field date city lat lon q
    · rw [ho]
      exact initShell_rawLookup date city lat lon (objKey q)
  · intro q' hq'
    obtain ⟨af, ao, ae⟩ := runQs_char { env with calcAttr := calcAttr' }
      t q' quantList (initShell date city lat lon) quantList_nodup
      (mem_quantList q')
    obtain ⟨bf, bo, be⟩ := runQs_char env t q' quantList
      (initShell date city lat lon) quantList_nodup (mem_quantList q')
    rw [hcongr q' hq'] at af ao ae
    exact ⟨af.trans bf.symm, ao.trans bo.symm, ae.trans be.symm⟩
  · intro q' hq'
    rw [hcongr q' hq']
  · intro q'
    exact computeT_trace_ne_nil q' { env with calcAttr := calcAttr' } t

/-- C1 witness: with only NakshatraAtTime callable and TithiAtTime raising
"boom", the assembled state has tithi null, tithi_error "boom", and the
nakshatra entries of the unchanged environment. -/
theorem c1_quantity_isolation_witness :
    dictLookup (runQs { envIso with calcAttr := calcBoom } ⟨0⟩ quantList
      (initShell "2025-01-01" (some "Jaipur") 1 2)).1 "tithi" =
        some JVal.null
    ∧ rawLookup (runQs { envIso with calcAttr := calcBoom } ⟨0⟩ quantList
        (initShell "2025-01-01" (some "Jaipur") 1 2)).1 "tithi_error" =
        some (JVal.str "boom")
    ∧ dictLookup (runQs { envIso with calcAttr := calcBoom } ⟨0⟩ quantList
        (initShell "2025-01-01" (some "Jaipur") 1 2)).1 "nakshatra" =
      dictLookup (runQs envIso ⟨0⟩ quantList
        (initShell "2025-01-01" (some "Jaipur") 1 2)).1 "nakshatra" := by
  have hag : ∀ q' : Quantity, q' ≠ Quantity.tithi →
      ∀ n ∈ nameClosure q', calcBoom n = envIso.calcAttr n := by
    intro q' hq' n hn
    unfold calcBoom
    by_cases hT : n = "TithiAtTime"
    · subst hT
      exfalso
      revert hn
      cases q' with
      | tithi => exact absurd rfl hq'
      | nakshatra => decide
      | yoga => decide
      | karan => decide
      | rahu => decide
      | gulika => decide
      | abhijit => decide
    · rw [if_neg hT]
  have h := c1_quantity_isolation envIso calcBoom ⟨0⟩ Quantity.tithi
    "boom" "2025-01-01" (some "Jaipur") 1 2 hag rfl rfl
  exact ⟨h.1.1, h.1.2.1, (h.2.1 Quantity.nakshatra (by decide)).1⟩

theorem sheet_written_not_quantity_key (q : Quantity) :
    objKey q ≠ "sheet_written" ∧ errKey q ≠ "sheet_written" := by
  cases q <;> decide

theorem c4_main (env : Env) (t : TimeObj) (d : String) (c : Option String)
    (la lo : Rat) (b : Bool) :
    (∀ s ∈ initShell d c la lo ::
        (runQs env t quantList (initShell d c la lo)).2.2
        ++ [rawSet (runQs env t quantList (initShell d c la lo)).1
          "sheet_written" (JVal.bool b)], presentAll s)
    ∧ List.Chain' rawExtends (initShell d c la lo ::
        (runQs env t quantList (initShell d c la lo)).2.2
        ++ [rawSet (runQs env t quantList (initShell d c la lo)).1
          "sheet_written" (JVal.bool b)]) := by
  have hpres := runQs_presentAll env t quantList (initShell d c la lo)
    (presentAll_initShell d c la lo)
  have hfresh : ∀ q ∈ quantList,
      objKey q ∉ rawKeys (initShell d c la lo)
      ∧ errKey q ∉ rawKeys (initShell d c la lo) := by
    intro q _
    rw [initShell_rawKeys]
    simp
  have hchain := runQs_chain env t quantList (initShell d c la lo)
    quantList_nodup hfresh
  have hswfresh : "sheet_written" ∉
      rawKeys (runQs env t quantList (initShell d c la lo)).1 := by
    intro hmem
    have h2 := hchain.2 "sheet_written" hmem
    rw [initShell_rawKeys] at h2
    simp only [List.append_nil, List.mem_flatMap, List.mem_cons,
      List.not_mem_nil, or_false] at h2
    obtain ⟨q, _, hm⟩ := h2
    rcases hm with hm | hm
    · exact (sheet_written_not_quantity_key q).1 hm.symm
    · exact (sheet_written_not_quantity_key q).2 hm.symm
  constructor
  · intro s hs
    rcases List.mem_cons.mp hs with rfl | hs'
    · exact presentAll_initShell d c la lo
    · rcases List.mem_append.mp hs' with h | h
      · exact hpres.2 s h
      · rw [List.mem_singleton] at h
        subst h
        exact presentAll_rawSet _ _ _ hpres.1
  · have hconn : ∀ x ∈ (initShell d c la lo ::
        (runQs env t quantList (initShell d c la lo)).2.2).getLast?,
        ∀ y ∈ [rawSet (runQs env t quantList (initShell d c la lo)).1
          "sheet_written" (JVal.bool b)].head?,
        rawExtends x y := by
      intro x hx y hy
      rw [runQs_getLast env t quantList (initShell d c la lo)] at hx
      simp only [Option.mem_def, Option.some.injEq] at hx
      simp only [List.head?_cons, Option.mem_def, Option.some.injEq] at hy
      subst hx
      subst hy
      exact rawExtends_rawSet _ _ _ hswfresh
    have happ := List.Chain'.append hchain.1
      (List.chain'_singleton _) hconn
    simpa using happ

/-- C4: at every point during the assembly — the initial shell, the state
after each quantity attempt, and the final state after the persistence
step, on the unavailable path as well — all twelve top-level keys are
present, and along the successive states the raw mapping only gains
entries: no prior raw entry is removed or overwritten. -/
theorem c4_shape_invariant (env : Env) (date0 : Option String)
    (lat lon : Rat) (tz : String) (city : Option String) :
    (∀ s ∈ (get_panchangT env date0 lat lon tz city).states, presentAll s)
    ∧ List.Chain' rawExtends
        (get_panchangT env date0 lat lon tz city).states := by
  by_cases hA : env.avail = false
  · constructor
    · intro s hs
      simp only [get_panchangT, hA, if_pos] at hs
      rcases List.mem_cons.mp hs with rfl | hs'
      · exact presentAll_initShell _ _ _ _
      · rw [List.mem_singleton] at hs'
        subst hs'
        exact presentAll_rawSet _ _ _ (presentAll_initShell _ _ _ _)
    · simp only [get_panchangT, hA, if_pos]
      refine List.chain'_cons.mpr ⟨?_, List.chain'_singleton _⟩
      apply rawExtends_rawSet
      rw [initShell_rawKeys]
      simp
  · have hA' : env.avail = true := by
      revert hA
      cases env.avail <;> simp
    rcases hG : mkGeo env city lat lon with eG | g
    · have hst : (get_panchangT env date0 lat lon tz city).states =
          [initShell (resolveDate date0 env.today) city lat lon] := by
        simp [get_panchangT, hA', hG]
      rw [hst]
      constructor
      · intro s hs
        rw [List.mem_singleton] at hs
        subst hs
        exact presentAll_initShell _ _ _ _
      · exact List.chain'_singleton _
    · rcases hT : mkTime env (resolveDate date0 env.today) g with eT | t
      · have hst : (get_panchangT env date0 lat lon tz city).states =
            [initShell (resolveDate date0 env.today) city lat lon] := by
          simp [get_panchangT, hA', hG, hT]
        rw [hst]
        constructor
        · intro s hs
          rw [List.mem_singleton] at hs
          subst hs
          exact presentAll_initShell _ _ _ _
        · exact List.chain'_singleton _
      · have hst : (get_panchangT env date0 lat lon tz city).states =
            initShell (resolveDate date0 env.today) city lat lon ::
            (runQs env t quantList
              (initShell (resolveDate date0 env.today) city lat lon)).2.2
            ++ [rawSet (runQs env t quantList
                (initShell (resolveDate date0 env.today) city lat lon)).1
              "sheet_written"
              (JVal.bool (write_to_sheetT env.sheet (runQs env t quantList
                (initShell (resolveDate date0 env.today) city lat
                  lon)).1).1)] := by
          simp [get_panchangT, hA', hG, hT]
        rw [hst]
        exact c4_main env t (resolveDate date0 env.today) city lat lon _

/-- C4 witness: the invariant instantiated on a full concrete run. -/
theorem c4_shape_invariant_witness :
    List.Chain' rawExtends
      (get_panchangT envNone none 1 2 "Asia/Kolkata"
        (some "Jaipur")).states :=
  (c4_shape_invariant envNone none 1 2 "Asia/Kolkata" (some "Jaipur")).2

end AstroBackend
